import Mathlib

/-!
Verification development for the bcachefs foreground data path
(`io.c`, `move.c`, `btree_update_leaf.c` and the sysfs counter surface).

The data model and the operations are translated from the C source:
extents carry a version and a list of (pointer, crc-descriptor) pairs;
the migrate index-update, the write index update, the replica
submission loop, the encode-loop version/nonce derivation, the read
checksum-error path, the move pass pending-write queue and the
transactional btree insert are each embedded as executable Lean
functions over this model.  Machine integers are modelled as `Nat`
(device offsets, sector counts, versions never overflow in the
scenarios considered) and errno values as `Int`.
-/

set_option autoImplicit false

namespace Bcachefs

/-- Kernel errno values used by the embedded code (negative, as returned). -/
def BCH_EINTR : Int := -4

/-- Negative errno for an I/O error, returned when a key loses every pointer. -/
def EIO : Int := -5

/-- Synthetic block status set on a bio whose device is being torn down. -/
def BLK_STS_REMOVED : Nat := 128

/-- An extent pointer: `(device, device_offset, cached)`, from `struct bch_extent_ptr`. -/
structure BPtr where
  dev : Nat
  offset : Nat
  cached : Bool
  deriving Repr, DecidableEq

/-- An unpacked crc descriptor, from `struct bch_extent_crc_unpacked`. -/
structure BCrc where
  compressedSize : Nat
  uncompressedSize : Nat
  liveSize : Nat
  offset : Nat
  nonce : Nat
  csumType : Nat
  compressionType : Nat
  deriving Repr, DecidableEq

/-- A pointer together with the crc descriptor that covers it
(`extent_for_each_ptr_crc` iterates these pairs). -/
structure PtrCrc where
  ptr : BPtr
  crc : BCrc
  deriving Repr, DecidableEq

/-- An extent key: logical range `[start, stop)`, version, pointers.
Models `struct bkey_i_extent` for the purposes of the data path. -/
structure BExtent where
  start : Nat
  stop : Nat
  version : Nat
  ptrs : List PtrCrc
  deriving Repr, DecidableEq

/-- One slot returned by `bch2_btree_iter_peek_slot` over the extent
btree: a range `[start, stop)` with `data = none` when the key there is
not a data extent (hole, discard or reservation). -/
structure Slot where
  start : Nat
  stop : Nat
  version : Nat
  data : Option (List PtrCrc)
  deriving Repr, DecidableEq

/-- Modelled from the spec (extents.c is not under src/):
`bch2_extent_has_device` returns whether some pointer of the extent
references the given device. -/
def bch2_extent_has_device (ptrs : List PtrCrc) (d : Nat) : Bool :=
  ptrs.any fun pc => pc.ptr.dev == d

/-- Modelled from the spec (extents.c is not under src/):
`bch2_extent_drop_ptr` removes the pointer `bch2_extent_has_device`
found, i.e. the first pointer on the given device. -/
def bch2_extent_drop_dev : List PtrCrc → Nat → List PtrCrc
  | [], _ => []
  | pc :: rest, d => if pc.ptr.dev == d then rest else pc :: bch2_extent_drop_dev rest d

/-- Modelled from the spec (extents.c is not under src/):
`bch2_extent_matches_ptr` checks that the extent still contains the
source pointer at the expected offset: some pointer on the same device
whose device offset, adjusted by its crc window offset and the key
start, corresponds to the expected source offset.  The C test
`ptr->offset + crc.offset - bkey_start_offset(e.k) == m.offset - offset`
is rearranged additively for `Nat`. -/
def bch2_extent_matches_ptr (start : Nat) (ptrs : List PtrCrc) (m : BPtr)
    (offset : Nat) : Bool :=
  ptrs.any fun pc =>
    pc.ptr.dev == m.dev && pc.ptr.offset + pc.crc.offset + offset == m.offset + start

/-- Modelled from the spec (extents.c is not under src/):
`bch2_cut_front` trims an extent to start at `pos`, advancing each crc
window offset by the trimmed amount; a no-op when `pos` is not inside
the extent. -/
def cutFrontPtrs (delta : Nat) (ptrs : List PtrCrc) : List PtrCrc :=
  ptrs.map fun pc => { pc with crc := { pc.crc with offset := pc.crc.offset + delta } }

/-- `bch2_cut_front` on a whole extent key. -/
def bch2_cut_front (pos : Nat) (e : BExtent) : BExtent :=
  if pos ≤ e.start then e
  else { e with start := pos, ptrs := cutFrontPtrs (pos - e.start) e.ptrs }

/-- The migrate-write context of `bch2_migrate_index_update`:
the device being evacuated (or `-1`), the source pointer the data was
read from, the expected offset, and whether a move-pass context (and
hence its `sectors_raced` statistic) is attached. -/
structure MigrateWrite where
  moveDev : Int
  ptr : BPtr
  offset : Nat
  hasCtxt : Bool
  deriving Repr, DecidableEq

/-- State of the `bch2_migrate_index_update` loop: iterator position,
remaining new keys (front first, already cut to start at `pos`),
remaining index slots from `pos` onward, the processed regions of the
index in order, and the counters it maintains
(`extent_migrate_done`, `extent_migrate_raced`, `stats->sectors_raced`). -/
structure MigrateState where
  pos : Nat
  keys : List BExtent
  slots : List Slot
  outIndex : List Slot
  done : Nat
  raced : Nat
  sectorsRaced : Nat
  deriving Repr, DecidableEq

/-- Outcome of one iteration of the migrate index-update loop. -/
inductive StepOut where
  | next (st : MigrateState)
  | finished (st : MigrateState) (ret : Int)
  deriving Repr, DecidableEq

/-- The state carried out of a loop iteration. -/
def stepState : StepOut → MigrateState
  | .next st => st
  | .finished st _ => st

/-- The error carried out of a loop iteration (`0` while looping). -/
def stepErr : StepOut → Int
  | .next _ => 0
  | .finished _ r => r

/-- The `next:` label of `bch2_migrate_index_update`: pop every new key
whose end the iterator has passed, finish with success when the keylist
empties, else cut the new front key to start at the iterator position. -/
def migrateNextKeys (st : MigrateState) : StepOut :=
  match st.keys.dropWhile (fun kk => kk.stop ≤ st.pos) with
  | [] => .finished { st with keys := [] } 0
  | f :: r => .next { st with keys := bch2_cut_front st.pos f :: r }

/-- The `nomatch:` label of `bch2_migrate_index_update`: account the
raced bytes into the pass statistics (when a move context is attached),
increment `extent_migrate_raced`, advance the iterator to the next
slot, and continue through the `next:` logic without error. -/
def migrateNomatch (m : MigrateWrite) (st : MigrateState) (k : Slot)
    (rs : List Slot) : StepOut :=
  migrateNextKeys
    { st with
      pos := k.stop
      slots := rs
      outIndex := st.outIndex ++ [k]
      raced := st.raced + 1
      sectorsRaced := st.sectorsRaced + (if m.hasCtxt then k.stop - st.pos else 0) }

/-- The splice of `bch2_migrate_index_update` (lines 331-360): reassemble
the stored extent, cut it to `[pos, min (slot end) (new key end))`, drop
the source pointer when `move_dev >= 0`, then append every pointer (and
its crc) of the fresh write whose device the stored copy does not
already list.  Returns the spliced insert and the `did_work` flag. -/
def migrateSplice (m : MigrateWrite) (pos : Nat) (k : Slot)
    (kData : List PtrCrc) (new : BExtent) : BExtent × Bool :=
  let iStop := min k.stop new.stop
  let base := cutFrontPtrs (pos - k.start) kData
  let base := if 0 ≤ m.moveDev && bch2_extent_has_device base m.moveDev.toNat
    then bch2_extent_drop_dev base m.moveDev.toNat else base
  let spliced := new.ptrs.foldl
    (fun acc pc =>
      if bch2_extent_has_device acc.1 pc.ptr.dev then acc
      else (acc.1 ++ [pc], true))
    (base, false)
  ({ start := pos, stop := iStop, version := k.version, ptrs := spliced.1 }, spliced.2)

/-- One iteration of the `bch2_migrate_index_update` loop body: peek the
slot at the iterator position, compare it against the front new key,
and either treat the region as raced or splice and commit the modified
stored extent.  `bch2_extent_narrow_crcs`, `bch2_extent_normalize`,
`bch2_extent_mark_replicas_cached` and `bch2_check_mark_super` are
modelled as successful identities on the pointer devices (they neither
add nor remove device pointers of a fresh dirty extent), and the atomic
`bch2_btree_insert_at` is modelled as committing successfully, leaving
the iterator at the end of the inserted key. -/
def migrateStep (m : MigrateWrite) (st : MigrateState) : StepOut :=
  match st.slots, st.keys with
  | [], _ => .finished st 0
  | _, [] => .finished st 0
  | k :: rs, new :: _ =>
    match k.data with
    | none => migrateNomatch m st k rs
    | some kData =>
      if k.version != new.version then migrateNomatch m st k rs
      else if !bch2_extent_matches_ptr k.start kData m.ptr m.offset then
        migrateNomatch m st k rs
      else
        let si := migrateSplice m st.pos k kData new
        if !si.2 then migrateNomatch m st k rs
        else
          let ins := si.1
          migrateNextKeys
            { st with
              pos := ins.stop
              slots := if ins.stop < k.stop then { k with start := ins.stop } :: rs else rs
              outIndex := st.outIndex ++ [⟨ins.start, ins.stop, ins.version, some ins.ptrs⟩]
              done := st.done + 1 }

/-- `bch2_migrate_index_update`, iterated with fuel; returns the final
state and the return value. -/
def bch2_migrate_index_update (m : MigrateWrite) : Nat → MigrateState → MigrateState × Int
  | 0, st => (st, 0)
  | fuel + 1, st =>
    match migrateStep m st with
    | .finished s r => (s, r)
    | .next s => bch2_migrate_index_update m fuel s

/-- The raced condition of the migrate index-update, as the claim lists
it: version mismatch, not a data extent, source pointer no longer at
the expected offset, or the splice adds no new pointer. -/
def migrateNomatchCond (m : MigrateWrite) (pos : Nat) (k : Slot) (new : BExtent) : Bool :=
  k.version != new.version ||
  k.data.isNone ||
  !bch2_extent_matches_ptr k.start (k.data.getD []) m.ptr m.offset ||
  !(migrateSplice m pos k (k.data.getD []) new).2

/-- The move-pass statistics of `struct bch_move_stats`. -/
structure BchMoveStats where
  keysMoved : Nat
  sectorsMoved : Nat
  sectorsSeen : Nat
  deriving Repr, DecidableEq

/-- The statistics update `bch2_move_extent` performs once per candidate
extent its predicate selected (source lines 570-571). -/
def bch2_move_extent_stats (sectors : Nat) (s : BchMoveStats) : BchMoveStats :=
  { s with keysMoved := s.keysMoved + 1, sectorsMoved := s.sectorsMoved + sectors }

/-- The `move_device` argument `bch2_data_job` passes to `bch2_move_data`
for a `BCH_DATA_OP_MIGRATE` job (seventh argument of the call, source
line 880): it is the constant `-1`, not `op.migrate.dev`. -/
def bch2_data_job_migrate_move_device : Int := -1

/-!
Write index update (`bch2_write_index`, io.c lines 1135-1206).

The loop copies each pending key, drops every pointer whose device is in
the op's failed-device bitmap, and errors with `-EIO` when a key loses
all of its pointers; the error path (`err:`) resets
`keys->top = keys->keys`, discarding the whole key list, before
recording the error.  `bch2_check_mark_super` is modelled as successful
and the default index update function as inserting the surviving keys.
-/

/-- The pointers of one key that survive the failed-device drop. -/
def writeSurvivingPtrs (failed : List Nat) (ptrs : List PtrCrc) : List PtrCrc :=
  ptrs.filter fun pc => !(failed.contains pc.ptr.dev)

/-- The key-compaction loop of `bch2_write_index`: `none` when some key
is left with no surviving pointer (the `err:` path). -/
def bch2_write_index_core (failed : List Nat) : List BExtent → Option (List BExtent)
  | [] => some []
  | k :: rest =>
    let ptrs := writeSurvivingPtrs failed k.ptrs
    if ptrs.isEmpty then none
    else (bch2_write_index_core failed rest).map (fun l => { k with ptrs := ptrs } :: l)

/-- `bch2_write_index`: the keys actually handed to the index update
function, and the op's error afterwards.  On the error path nothing is
inserted and the error becomes `-EIO`; otherwise the surviving keys are
inserted and the op's pre-existing error (for example an allocation
error from `__bch2_write`, which still continues at `bch2_write_index`
when the keylist is non-empty, source lines 1700-1719) is surfaced
unchanged. -/
def bch2_write_index (keys : List BExtent) (failed : List Nat)
    (opError : Option Int) : List BExtent × Option Int :=
  match bch2_write_index_core failed keys with
  | none => ([], some EIO)
  | some l => (l, opError)

/-!
Replica submission (`bch2_submit_wbio_replicas`, io.c lines 1026-1081).
-/

/-- Per-device facts consulted during replica submission: whether the
journal flushes this device (`journal_flushes_device`) and whether its
I/O reference is still obtainable (`percpu_ref_tryget(&ca->io_ref)`). -/
structure DevInfo where
  journalFlushesDevice : Bool
  alive : Bool
  deriving Repr, DecidableEq

/-- What `bch2_submit_wbio_replicas` does with one pointer's bio. -/
structure Submission where
  cloned : Bool
  sector : Nat
  fua : Bool
  submitted : Bool
  status : Option Nat
  deriving Repr, DecidableEq

/-- `bch2_submit_wbio_replicas`: for each pointer of the key, clone the
bio when a later pointer exists (the last pointer consumes the
original), set the device sector from the pointer offset, tag FUA when
the journal does not flush the device, and either submit (device alive)
or complete immediately with `BLK_STS_REMOVED` (device being torn
down).  The op's bio carries no FUA on entry
(`bio_set_op_attrs(dst, REQ_OP_WRITE, 0)` at io.c line 1600). -/
def bch2_submit_wbio_replicas : List BPtr → (Nat → DevInfo) → List Submission
  | [], _ => []
  | p :: rest, devs =>
    { cloned := !rest.isEmpty
      sector := p.offset
      fua := !(devs p.dev).journalFlushesDevice
      submitted := (devs p.dev).alive
      status := if (devs p.dev).alive then none else some BLK_STS_REMOVED } ::
    bch2_submit_wbio_replicas rest devs

/-!
Encode-loop version and nonce derivation
(`bch2_write_extent`, io.c lines 1509-1516).
-/

/-- Checksum type constants, from the on-disk format. -/
def BCH_CSUM_NONE : Nat := 0

/-- The crc32c checksum type. -/
def BCH_CSUM_CRC32C : Nat := 1

/-- The crc64 checksum type. -/
def BCH_CSUM_CRC64 : Nat := 2

/-- The 80-bit chacha20-poly1305 authenticated checksum type. -/
def BCH_CSUM_CHACHA20_POLY1305_80 : Nat := 3

/-- The 128-bit chacha20-poly1305 authenticated checksum type. -/
def BCH_CSUM_CHACHA20_POLY1305_128 : Nat := 4

/-- Modelled from the spec (checksum.h is not under src/): the
encryption checksum types are the chacha20-poly1305 ones. -/
def bch2_csum_type_is_encryption (t : Nat) : Bool :=
  t == BCH_CSUM_CHACHA20_POLY1305_80 || t == BCH_CSUM_CHACHA20_POLY1305_128

/-- The parts of `struct bch_write_op` and `struct bch_fs` that the
version/nonce derivation touches: the caller-supplied version, the op
nonce, and the filesystem's monotonically increasing `key_version`
counter. -/
structure WriteOpVN where
  version : Nat
  nonce : Nat
  keyVersion : Nat
  deriving Repr, DecidableEq

/-- The version and crc nonce stamped on one chunk. -/
structure ChunkVN where
  version : Nat
  crcNonce : Nat
  deriving Repr, DecidableEq

/-- The version/nonce step of the encode loop for one chunk of
`srcLenSectors` sectors: only when the op's checksum type is an
encryption type, a zero caller version is replaced by a fresh value
from the `key_version` counter (`atomic64_inc_return(...) + 1`), and a
non-zero caller version keeps the caller's version, stamps the current
op nonce on the chunk's crc and advances the op nonce by the chunk
length in sectors. -/
def bch2_write_extent_chunk_vn (csumType : Nat) (op : WriteOpVN)
    (srcLenSectors : Nat) : ChunkVN × WriteOpVN :=
  if bch2_csum_type_is_encryption csumType then
    if op.version == 0 then
      (⟨op.keyVersion + 1 + 1, 0⟩, { op with keyVersion := op.keyVersion + 1 })
    else
      (⟨op.version, op.nonce⟩, { op with nonce := op.nonce + srcLenSectors })
  else
    (⟨op.version, 0⟩, op)

/-!
Read pipeline: checksum-mismatch handling (`__bch2_read_endio`, io.c
lines 2120-2138), retry entry (`bch2_rbio_retry`, lines 1927-1962) and
cache promotion (`should_promote`, lines 1852-1863, and
`__bch2_read_extent`, line 2301).
-/

/-- Retry disposition `READ_RETRY_AVOID`: retry, adding the device that
served the read to the avoid set. -/
def READ_RETRY_AVOID : Nat := 1

/-- Retry disposition `READ_RETRY`: retry without avoiding a device. -/
def READ_RETRY : Nat := 2

/-- Retry disposition `READ_ERR`: fatal for this request. -/
def READ_ERR : Nat := 3

/-- The actions taken by the `csum_err:` label of `__bch2_read_endio`. -/
structure CsumErrAction where
  mustBounce : Bool
  retry : Nat
  devIoError : Bool
  deriving Repr, DecidableEq

/-- The `csum_err:` label of `__bch2_read_endio`: when the bio was not
bounced and the destination is user mapped, set `BCH_READ_MUST_BOUNCE`
and retry with `READ_RETRY`; otherwise account a device I/O error
(`bch2_dev_io_error`) and retry with `READ_RETRY_AVOID`. -/
def read_endio_csum_err (bounce userMapped : Bool) : CsumErrAction :=
  if !bounce && userMapped then
    { mustBounce := true, retry := READ_RETRY, devIoError := false }
  else
    { mustBounce := false, retry := READ_RETRY_AVOID, devIoError := true }

/-- The avoid set `bch2_rbio_retry` builds before re-entering the read
pipeline: it is zeroed, then the picked device is added exactly when
the retry disposition is `READ_RETRY_AVOID` (source lines 1939-1942). -/
def bch2_rbio_retry_avoid (retry : Nat) (dev : Nat) : List Nat :=
  if retry == READ_RETRY_AVOID then [dev] else []

/-- The read flags of `struct bch_read_bio` that the retry and
promotion logic consult. -/
structure ReadFlags where
  mayPromote : Bool
  userMapped : Bool
  nodecode : Bool
  mustClone : Bool
  mustBounce : Bool
  inRetry : Bool
  retryIfStale : Bool
  deriving Repr, DecidableEq

/-- The flag rewrite `bch2_rbio_retry` performs before re-entering the
read pipeline (source lines 1953-1956): force cloning unless nodecode,
mark the read as being a retry, and clear `BCH_READ_MAY_PROMOTE`. -/
def bch2_rbio_retry_flags (f : ReadFlags) : ReadFlags :=
  { f with
    mustClone := f.mustClone || !f.nodecode
    inRetry := true
    mayPromote := false }

/-- `should_promote`: promote only when `BCH_READ_MAY_PROMOTE` is set,
the filesystem's writes are not dying, a fastest tier exists and the
picked replica is on a slower tier. -/
def should_promote (writesDying haveFastestTier pickOnSlowerTier : Bool)
    (flags : ReadFlags) : Bool :=
  flags.mayPromote && !writesDying && (haveFastestTier && pickOnSlowerTier)

/-- The promote allocation of `__bch2_read_extent` (line 2301):
`rbio->promote` is a promote op exactly when `should_promote` said yes. -/
def read_extent_promote (writesDying haveFastestTier pickOnSlowerTier : Bool)
    (flags : ReadFlags) : Option Unit :=
  if should_promote writesDying haveFastestTier pickOnSlowerTier flags
  then some () else none

/-!
Move pass pending-write queue (`next_pending_write`,
`do_pending_writes`, move.c lines 477-483 and 595-603).
-/

/-- A moving I/O on the pass's read list: the key position its read
started at, and whether the read has completed. -/
structure MovingIo where
  key : Nat
  readCompleted : Bool
  deriving Repr, DecidableEq

/-- `next_pending_write`: the head of the read list, but only when its
read has completed. -/
def next_pending_write : List MovingIo → Option MovingIo
  | [] => none
  | io :: _ => if io.readCompleted then some io else none

/-- `do_pending_writes`: repeatedly pop and dispatch the head while
`next_pending_write` yields one; returns the dispatched moving I/Os in
dispatch order and the remaining list. -/
def do_pending_writes : List MovingIo → List MovingIo × List MovingIo
  | [] => ([], [])
  | io :: rest =>
    if io.readCompleted then
      let p := do_pending_writes rest
      (io :: p.1, p.2)
    else ([], io :: rest)

/-!
Transactional btree insert (`__bch2_btree_insert_at`,
btree_update_leaf.c lines 299-483).
-/

/-- The outcome of one insert attempt inside `__bch2_btree_insert_at`:
success, a dropped-locks condition (every internal source of
`-EINTR`: failed lock upgrade, race fault, journal-res full,
need-traverse, need-gc-lock), or another error (`-EROFS`, `-EAGAIN`,
`-ENOSPC`, `-EIO`, a split failure). -/
inductive TryResult where
  | ok
  | eintr
  | fail (e : Int)
  deriving Repr, DecidableEq

/-- One attempt of `__bch2_btree_insert_at` together with the result of
the `bch2_btree_iter_traverse` calls performed on its `-EINTR` path
(`none` when every traverse succeeds; the traversal itself is an
external collaborator of this subsystem). -/
structure Attempt where
  res : TryResult
  traverse : Option Int
  deriving Repr, DecidableEq

/-- `__bch2_btree_insert_at` over a trace of attempt outcomes
(err-label logic, source lines 459-483): success and non-retry errors
return immediately; on `-EINTR` the iterators are re-traversed — a
traverse error is returned instead — and then the insert either
surfaces `-EINTR` (atomic flag set) or retries internally on the rest
of the trace.  `none` when the trace is exhausted mid-retry. -/
def btree_insert_at (atomic : Bool) : List Attempt → Option Int
  | [] => none
  | a :: rest =>
    match a.res with
    | .ok => some 0
    | .fail e => some e
    | .eintr =>
      match a.traverse with
      | some e => some e
      | none => if atomic then some BCH_EINTR else btree_insert_at atomic rest

/-!
Theorems.
-/

/-- Claim C5: in the read pipeline's post-I/O continuation, on a checksum
mismatch: if the bio was not bounced and the destination buffer is
user-mapped, the read is retried with forced bouncing (must-bounce set)
and without adding the device to the avoid-set; otherwise the read is
retried with this device added to the avoid-set and a device I/O error
is accounted against that device. -/
theorem C5_read_csum_err_retry (b u : Bool) (d : Nat) :
    (read_endio_csum_err b u).mustBounce = (!b && u) ∧
    (read_endio_csum_err b u).retry
      = (if !b && u then READ_RETRY else READ_RETRY_AVOID) ∧
    (read_endio_csum_err b u).devIoError = !(!b && u) ∧
    bch2_rbio_retry_avoid (read_endio_csum_err b u).retry d
      = (if !b && u then [] else [d]) := by
  cases b <;> cases u <;>
    simp [read_endio_csum_err, bch2_rbio_retry_avoid,
      READ_RETRY, READ_RETRY_AVOID]

/-- Claim C10: a read re-issued through the retry path never triggers cache
promotion: the retry clears the may-promote flag before re-entering the
read pipeline, promotion is only started when that flag is set, so no
promote op is allocated on a retried read, regardless of the original
request's flags and of the tier situation. -/
theorem C10_retry_never_promotes (f : ReadFlags)
    (writesDying haveFastestTier pickOnSlowerTier : Bool) :
    should_promote writesDying haveFastestTier pickOnSlowerTier
      (bch2_rbio_retry_flags f) = false ∧
    read_extent_promote writesDying haveFastestTier pickOnSlowerTier
      (bch2_rbio_retry_flags f) = none := by
  simp [should_promote, read_extent_promote, bch2_rbio_retry_flags]

/-- Claim C9: the transactional insert surfaces the defined retry error
`-EINTR` only under the atomic flag; without it, every internal
`-EINTR` leads to a re-traverse and an internal retry, so the caller
never sees `-EINTR` (given that the attempts and the external iterator
traversal produce only non-`-EINTR` error codes of their own). -/
theorem C9_nonatomic_insert_never_eintr (trace : List Attempt) (r : Int)
    (hfail : ∀ a ∈ trace, a.res ≠ TryResult.fail BCH_EINTR)
    (htrav : ∀ a ∈ trace, a.traverse ≠ some BCH_EINTR)
    (h : btree_insert_at false trace = some r) :
    r ≠ BCH_EINTR := by
  induction trace with
  | nil => simp [btree_insert_at] at h
  | cons a rest ih =>
    have hfa := hfail a (List.mem_cons_self a rest)
    have hta := htrav a (List.mem_cons_self a rest)
    rcases hres : a.res with _ | _ | e
    · rw [btree_insert_at, hres] at h
      have : r = 0 := by exact Option.some.inj h |>.symm
      subst this
      simp [BCH_EINTR]
    · rw [btree_insert_at, hres] at h
      rcases htr : a.traverse with _ | e2
      · rw [htr] at h
        simp only [if_neg (by simp : ¬False = True)] at h
        exact ih (fun x hx => hfail x (List.mem_cons_of_mem a hx))
          (fun x hx => htrav x (List.mem_cons_of_mem a hx)) (by simpa using h)
      · rw [htr] at h
        have : r = e2 := (Option.some.inj h).symm
        subst this
        intro hc
        exact hta (by rw [htr, hc])
    · rw [btree_insert_at, hres] at h
      have : r = e := (Option.some.inj h).symm
      subst this
      intro hc
      exact hfa (by rw [hres, hc])

/-- Witness for C9: a trace whose first attempt drops locks and whose
second succeeds; without the atomic flag the insert retries internally
and returns success, not the retry error. -/
theorem C9_witness :
    btree_insert_at false [⟨TryResult.eintr, none⟩, ⟨TryResult.ok, none⟩] = some 0 ∧
    (0 : Int) ≠ BCH_EINTR := by
  refine ⟨rfl, ?_⟩
  exact C9_nonatomic_insert_never_eintr
    [⟨TryResult.eintr, none⟩, ⟨TryResult.ok, none⟩] 0
    (by decide) (by decide) rfl

/-- The submission list has one entry per pointer of the key. -/
theorem bch2_submit_wbio_replicas_length (ptrs : List BPtr) (devs : Nat → DevInfo) :
    (bch2_submit_wbio_replicas ptrs devs).length = ptrs.length := by
  induction ptrs with
  | nil => rfl
  | cons p rest ih => simp [bch2_submit_wbio_replicas, ih]

/-- Claim C6: during replica submission, for the i-th pointer of the key: the
bio is cloned exactly when a later pointer exists (the last pointer
consumes the original); the submitted bio's device sector is the
pointer's offset; the bio is tagged FUA exactly when the device does
not offer journal-flush semantics; and a pointer whose device is being
torn down is not submitted and completes immediately with the synthetic
removed status. -/
theorem C6_submit_replicas (ptrs : List BPtr) (devs : Nat → DevInfo) (i : Nat)
    (h : i < ptrs.length) :
    (bch2_submit_wbio_replicas ptrs devs).getD i ⟨false, 0, false, false, none⟩ =
      { cloned := decide (i + 1 < ptrs.length)
        sector := (ptrs.getD i ⟨0, 0, false⟩).offset
        fua := !(devs (ptrs.getD i ⟨0, 0, false⟩).dev).journalFlushesDevice
        submitted := (devs (ptrs.getD i ⟨0, 0, false⟩).dev).alive
        status := if (devs (ptrs.getD i ⟨0, 0, false⟩).dev).alive then none
                  else some BLK_STS_REMOVED } := by
  induction ptrs generalizing i with
  | nil => simp at h
  | cons p rest ih =>
    cases i with
    | zero =>
      simp only [bch2_submit_wbio_replicas, List.getD_cons_zero]
      congr 1
      · rcases rest with _ | ⟨q, qs⟩ <;> simp
    | succ n =>
      have hn : n < rest.length := by simpa using h
      simp only [bch2_submit_wbio_replicas, List.getD_cons_succ]
      rw [ih n hn]
      congr 1
      simp [Nat.succ_lt_succ_iff]

/-- Witness for C6: a two-pointer key over one live journal-flushing
device and one dying non-flushing device. -/
theorem C6_witness :
    (bch2_submit_wbio_replicas [⟨0, 11, false⟩, ⟨1, 22, false⟩]
      (fun d => if d == 0 then ⟨true, true⟩ else ⟨false, false⟩)).getD 1
        ⟨false, 0, false, false, none⟩ =
      { cloned := false, sector := 22, fua := true, submitted := false
        status := some BLK_STS_REMOVED } := by
  have := C6_submit_replicas [⟨0, 11, false⟩, ⟨1, 22, false⟩]
    (fun d => if d == 0 then ⟨true, true⟩ else ⟨false, false⟩) 1 (by decide)
  simpa using this

/-- Dispatched and remaining moving I/Os partition the read list in order. -/
theorem do_pending_writes_append (l : List MovingIo) :
    (do_pending_writes l).1 ++ (do_pending_writes l).2 = l := by
  induction l with
  | nil => rfl
  | cons io rest ih =>
    by_cases hc : io.readCompleted <;> simp [do_pending_writes, hc, ih]

/-- Every dispatched moving I/O had its read completed. -/
theorem do_pending_writes_completed (l : List MovingIo) :
    (do_pending_writes l).1.all (fun io => io.readCompleted) = true := by
  induction l with
  | nil => rfl
  | cons io rest ih =>
    by_cases hc : io.readCompleted <;> simp_all [do_pending_writes, hc]

/-- The head of the remaining list, if any, has not completed its read. -/
theorem do_pending_writes_blocked_head (l : List MovingIo) :
    ((do_pending_writes l).2.head?.map fun io => io.readCompleted).getD false
      = false := by
  induction l with
  | nil => rfl
  | cons io rest ih =>
    by_cases hc : io.readCompleted <;> simp [do_pending_writes, hc, ih]

/-- The first dispatched moving I/O is exactly what `next_pending_write`
returns. -/
theorem do_pending_writes_head (l : List MovingIo) :
    (do_pending_writes l).1.head? = next_pending_write l := by
  cases l with
  | nil => rfl
  | cons io rest =>
    by_cases hc : io.readCompleted <;> simp [do_pending_writes, next_pending_write, hc]

/-- Claim C8: within a move pass, pending writes start in exactly the order
their reads started: `do_pending_writes` dispatches an in-order prefix
of the read list (dispatched ++ remaining = list), dispatches only
completed reads, dispatches the head first (agreeing with
`next_pending_write`), never dispatches past an incomplete head even
when later reads completed earlier, and therefore keeps dispatch — and
hence index-update attempts — in ascending key order whenever the reads
were started in ascending key order. -/
theorem C8_move_writes_fifo (l : List MovingIo) :
    (do_pending_writes l).1 ++ (do_pending_writes l).2 = l ∧
    (do_pending_writes l).1.all (fun io => io.readCompleted) = true ∧
    ((do_pending_writes l).2.head?.map fun io => io.readCompleted).getD false
      = false ∧
    (do_pending_writes l).1.head? = next_pending_write l ∧
    (List.Chain' (fun a b => a.key ≤ b.key) l →
      List.Chain' (fun a b => a.key ≤ b.key) (do_pending_writes l).1) := by
  refine ⟨do_pending_writes_append l, do_pending_writes_completed l,
    do_pending_writes_blocked_head l, do_pending_writes_head l, ?_⟩
  intro hc
  rw [← do_pending_writes_append l] at hc
  exact (List.chain'_append.mp hc).1

/-- Witness for C8: three queued moving I/Os in ascending key order,
the middle one with its read incomplete; only the head is dispatched
even though the third read completed earlier, and dispatch order is
ascending. -/
theorem C8_witness :
    (do_pending_writes [⟨1, true⟩, ⟨2, false⟩, ⟨3, true⟩]).1 = [⟨1, true⟩] ∧
    List.Chain' (fun a b => a.key ≤ b.key)
      (do_pending_writes [⟨1, true⟩, ⟨2, false⟩, ⟨3, true⟩]).1 := by
  refine ⟨by decide, ?_⟩
  refine (C8_move_writes_fifo [⟨1, true⟩, ⟨2, false⟩, ⟨3, true⟩]).2.2.2.2 ?_
  simp [List.chain'_cons]

/-- Claim C7 counterexample: a chunk whose checksum type is plain crc32c and
whose caller-supplied version is zero keeps version zero — the
filesystem `key_version` counter (here at 5) is not consumed and no
fresh version is stamped — because the version/nonce derivation only
runs for encryption checksum types.  The claim as stated (fresh version
for every chunk whenever the caller's version is zero) is false here. -/
theorem C7_counterexample :
    (bch2_write_extent_chunk_vn BCH_CSUM_CRC32C ⟨0, 0, 5⟩ 8).1.version = 0 ∧
    (bch2_write_extent_chunk_vn BCH_CSUM_CRC32C ⟨0, 0, 5⟩ 8).2.keyVersion = 5 ∧
    (0 : Nat) ≠ 5 + 2 := by
  decide

/-- Claim C7 (amended): for chunks whose checksum type is an encryption type,
a zero caller version is replaced by a fresh value from the
monotonically increasing `key_version` counter; otherwise the caller's
version is used unchanged, the chunk's crc receives the current op
nonce and the op nonce advances by the chunk length in sectors, so the
next chunk of the same payload receives a distinct nonce. -/
theorem C7_version_nonce_encrypted (t : Nat) (op : WriteOpVN) (len len2 : Nat)
    (henc : bch2_csum_type_is_encryption t = true) :
    (op.version = 0 →
      (bch2_write_extent_chunk_vn t op len).1.version = op.keyVersion + 2 ∧
      (bch2_write_extent_chunk_vn t op len).2.keyVersion = op.keyVersion + 1) ∧
    (op.version ≠ 0 →
      (bch2_write_extent_chunk_vn t op len).1.version = op.version ∧
      (bch2_write_extent_chunk_vn t op len).1.crcNonce = op.nonce ∧
      (bch2_write_extent_chunk_vn t op len).2.nonce = op.nonce + len ∧
      (0 < len →
        (bch2_write_extent_chunk_vn t
            (bch2_write_extent_chunk_vn t op len).2 len2).1.crcNonce
          ≠ (bch2_write_extent_chunk_vn t op len).1.crcNonce)) := by
  constructor
  · intro hv
    simp [bch2_write_extent_chunk_vn, henc, hv]
  · intro hv
    have hbeq : (op.version == 0) = false := by simpa using hv
    refine ⟨?_, ?_, ?_, ?_⟩
    · simp [bch2_write_extent_chunk_vn, henc, hbeq]
    · simp [bch2_write_extent_chunk_vn, henc, hbeq]
    · simp [bch2_write_extent_chunk_vn, henc, hbeq]
    · intro hlen
      simp [bch2_write_extent_chunk_vn, henc, hbeq]
      omega

/-- Witness for C7: an encrypted chunk pair with caller version 9, op
nonce 4 and first chunk length 8; the second chunk's nonce 12 differs
from the first chunk's nonce 4. -/
theorem C7_witness :
    (bch2_write_extent_chunk_vn BCH_CSUM_CHACHA20_POLY1305_80 ⟨9, 4, 0⟩ 8).1.crcNonce
      = 4 ∧
    (bch2_write_extent_chunk_vn BCH_CSUM_CHACHA20_POLY1305_80
        (bch2_write_extent_chunk_vn BCH_CSUM_CHACHA20_POLY1305_80 ⟨9, 4, 0⟩ 8).2
        8).1.crcNonce ≠ 4 := by
  have h := C7_version_nonce_encrypted BCH_CSUM_CHACHA20_POLY1305_80 ⟨9, 4, 0⟩ 8 8
    (by decide)
  obtain ⟨h1, h2, h3, h4⟩ := h.2 (by decide)
  exact ⟨h2, by rw [h2] at h4; exact h4 (by decide)⟩

/-- When every key keeps a surviving pointer, the compaction loop of
`bch2_write_index` keeps every key, with its failed-device pointers
dropped. -/
theorem bch2_write_index_core_all_survive (failed : List Nat) (keys : List BExtent)
    (h : ∀ k ∈ keys, writeSurvivingPtrs failed k.ptrs ≠ []) :
    bch2_write_index_core failed keys
      = some (keys.map fun k => { k with ptrs := writeSurvivingPtrs failed k.ptrs }) := by
  induction keys with
  | nil => rfl
  | cons k rest ih =>
    have hk := h k (List.mem_cons_self k rest)
    have hne : (writeSurvivingPtrs failed k.ptrs).isEmpty = false := by
      simpa [List.isEmpty_iff] using hk
    simp only [bch2_write_index_core, hne, Bool.false_eq_true, if_false,
      ih (fun x hx => h x (List.mem_cons_of_mem k hx)), List.map_cons]
    rfl

/-- When some key loses every pointer, the compaction loop of
`bch2_write_index` takes the error path. -/
theorem bch2_write_index_core_dead_key (failed : List Nat) (keys : List BExtent)
    (h : ∃ k ∈ keys, writeSurvivingPtrs failed k.ptrs = []) :
    bch2_write_index_core failed keys = none := by
  induction keys with
  | nil => simp at h
  | cons k rest ih =>
    by_cases hk : (writeSurvivingPtrs failed k.ptrs).isEmpty = true
    · simp [bch2_write_index_core, hk]
    · have hk' : writeSurvivingPtrs failed k.ptrs ≠ [] := by
        simpa [List.isEmpty_iff] using hk
      obtain ⟨x, hx, hxe⟩ := h
      rcases List.mem_cons.mp hx with rfl | hx'
      · exact absurd hxe hk'
      · simp [bch2_write_index_core, hk, ih ⟨x, hx', hxe⟩]

/-- Claim C4 counterexample: an op with two keys, the first fully written on
device 0, the second whose only pointer is on failed device 1.  The
claim says the key covering the successfully written data (the first
key, whose pointer survives the failure bitmap) is still inserted and a
single error surfaced; the code instead discards the whole key list —
nothing at all is inserted — while surfacing `-EIO`. -/
theorem C4_counterexample :
    (bch2_write_index
        [⟨0, 8, 1, [⟨⟨0, 10, false⟩, ⟨0, 0, 0, 0, 0, 0, 0⟩⟩]⟩,
         ⟨8, 16, 1, [⟨⟨1, 20, false⟩, ⟨0, 0, 0, 0, 0, 0, 0⟩⟩]⟩]
        [1] none).1 = [] ∧
    (bch2_write_index
        [⟨0, 8, 1, [⟨⟨0, 10, false⟩, ⟨0, 0, 0, 0, 0, 0, 0⟩⟩]⟩,
         ⟨8, 16, 1, [⟨⟨1, 20, false⟩, ⟨0, 0, 0, 0, 0, 0, 0⟩⟩]⟩]
        [1] none).2 = some EIO ∧
    writeSurvivingPtrs [1] [⟨⟨0, 10, false⟩, ⟨0, 0, 0, 0, 0, 0, 0⟩⟩] ≠ [] := by
  decide

/-- Claim C4 (amended): after a partial write failure the index update drops
from each key every pointer whose device is in the failure bitmap; when
every key retains at least one surviving pointer, all keys are inserted
in that reduced form and the op's pre-existing error (for example the
allocation error with which `__bch2_write` still continues at the index
update) is surfaced as the single error; but when any key is left with
no surviving pointer, the entire key list is discarded — no key is
inserted by that index update — and the single surfaced error is
`-EIO`. -/
theorem C4_write_index_failure (keys : List BExtent) (failed : List Nat)
    (opError : Option Int) :
    ((∀ k ∈ keys, writeSurvivingPtrs failed k.ptrs ≠ []) →
      bch2_write_index keys failed opError
        = (keys.map fun k => { k with ptrs := writeSurvivingPtrs failed k.ptrs },
           opError)) ∧
    ((∃ k ∈ keys, writeSurvivingPtrs failed k.ptrs = []) →
      bch2_write_index keys failed opError = ([], some EIO)) := by
  constructor
  · intro h
    unfold bch2_write_index
    rw [bch2_write_index_core_all_survive failed keys h]
  · intro h
    unfold bch2_write_index
    rw [bch2_write_index_core_dead_key failed keys h]

/-- Witness for C4: both halves at concrete inputs — an op whose only
failure is an earlier allocation error inserts both reduced keys and
surfaces that error; an op whose second key lost every device inserts
nothing and surfaces `-EIO`. -/
theorem C4_witness :
    bch2_write_index [⟨0, 8, 1, [⟨⟨0, 10, false⟩, ⟨0, 0, 0, 0, 0, 0, 0⟩⟩,
                                 ⟨⟨1, 20, false⟩, ⟨0, 0, 0, 0, 0, 0, 0⟩⟩]⟩]
        [1] (some (-11))
      = ([⟨0, 8, 1, [⟨⟨0, 10, false⟩, ⟨0, 0, 0, 0, 0, 0, 0⟩⟩]⟩], some (-11)) ∧
    bch2_write_index [⟨0, 8, 1, [⟨⟨1, 20, false⟩, ⟨0, 0, 0, 0, 0, 0, 0⟩⟩]⟩]
        [1] none
      = ([], some EIO) := by
  constructor
  · have h := (C4_write_index_failure
      [⟨0, 8, 1, [⟨⟨0, 10, false⟩, ⟨0, 0, 0, 0, 0, 0, 0⟩⟩,
                  ⟨⟨1, 20, false⟩, ⟨0, 0, 0, 0, 0, 0, 0⟩⟩]⟩]
      [1] (some (-11))).1 (by decide)
    simpa [writeSurvivingPtrs] using h
  · exact (C4_write_index_failure
      [⟨0, 8, 1, [⟨⟨1, 20, false⟩, ⟨0, 0, 0, 0, 0, 0, 0⟩⟩]⟩]
      [1] none).2 (by decide)

/-- The `next:` logic of the migrate index-update only reshapes the
keylist: it never fails and leaves position, slots, processed regions
and all counters untouched. -/
theorem migrateNextKeys_fields (st : MigrateState) :
    stepErr (migrateNextKeys st) = 0 ∧
    (stepState (migrateNextKeys st)).pos = st.pos ∧
    (stepState (migrateNextKeys st)).slots = st.slots ∧
    (stepState (migrateNextKeys st)).outIndex = st.outIndex ∧
    (stepState (migrateNextKeys st)).done = st.done ∧
    (stepState (migrateNextKeys st)).raced = st.raced ∧
    (stepState (migrateNextKeys st)).sectorsRaced = st.sectorsRaced := by
  unfold migrateNextKeys
  cases h : st.keys.dropWhile (fun kk => kk.stop ≤ st.pos) <;>
    simp [stepErr, stepState]

/-- The `nomatch:` label: no error, `extent_migrate_raced` incremented,
`extent_migrate_done` untouched, the raced bytes accounted when a move
context is attached, the iterator advanced past the stored extent, and
the stored extent left in place. -/
theorem migrateNomatch_fields (m : MigrateWrite) (st : MigrateState) (k : Slot)
    (rs : List Slot) :
    stepErr (migrateNomatch m st k rs) = 0 ∧
    (stepState (migrateNomatch m st k rs)).raced = st.raced + 1 ∧
    (stepState (migrateNomatch m st k rs)).done = st.done ∧
    (stepState (migrateNomatch m st k rs)).sectorsRaced
      = st.sectorsRaced + (if m.hasCtxt then k.stop - st.pos else 0) ∧
    (stepState (migrateNomatch m st k rs)).pos = k.stop ∧
    (stepState (migrateNomatch m st k rs)).slots = rs ∧
    (stepState (migrateNomatch m st k rs)).outIndex = st.outIndex ++ [k] := by
  unfold migrateNomatch
  have h := migrateNextKeys_fields
    { st with
      pos := k.stop
      slots := rs
      outIndex := st.outIndex ++ [k]
      raced := st.raced + 1
      sectorsRaced := st.sectorsRaced + (if m.hasCtxt then k.stop - st.pos else 0) }
  exact ⟨h.1, h.2.2.2.2.2.1, h.2.2.2.2.1, h.2.2.2.2.2.2, h.2.1, h.2.2.1, h.2.2.2.1⟩

/-- Claim C1: in the migrate index-update, whenever the stored extent's
version differs from the new key's version, or it is not a data extent,
or it no longer contains the source pointer at the expected offset, or
the splice adds no new pointer, the region is treated as raced: the
raced bytes `k.stop - pos` are accounted into the pass's
`sectors_raced`, `extent_migrate_raced` is incremented (and
`extent_migrate_done` is not), iteration advances to the next stored
extent, and the update returns success for the region. -/
theorem C1_migrate_raced_region (m : MigrateWrite) (st : MigrateState) (k : Slot)
    (rs : List Slot) (new : BExtent) (rk : List BExtent)
    (hslots : st.slots = k :: rs) (hkeys : st.keys = new :: rk)
    (hpos : st.pos < k.stop) (hctxt : m.hasCtxt = true)
    (hcond : migrateNomatchCond m st.pos k new = true) :
    stepErr (migrateStep m st) = 0 ∧
    (stepState (migrateStep m st)).raced = st.raced + 1 ∧
    (stepState (migrateStep m st)).done = st.done ∧
    (stepState (migrateStep m st)).sectorsRaced
      = st.sectorsRaced + (k.stop - st.pos) ∧
    (stepState (migrateStep m st)).pos = k.stop ∧
    (stepState (migrateStep m st)).slots = rs := by
  have hstep : migrateStep m st = migrateNomatch m st k rs := by
    obtain ⟨pos, keys, slots, out, d0, r0, s0⟩ := st
    simp only at hslots hkeys
    subst hslots hkeys
    show migrateStep m ⟨pos, new :: rk, k :: rs, out, d0, r0, s0⟩ = _
    unfold migrateStep
    simp only [migrateNomatchCond] at hcond
    cases hd : k.data with
    | none => simp [hd]
    | some kData =>
      simp only [hd, Option.isNone_some, Bool.false_eq_true, false_or,
        Option.getD_some] at hcond
      by_cases hv : (k.version != new.version) = true
      · simp [hd, hv]
      · simp only [Bool.not_eq_true] at hv
        simp only [hv, Bool.false_eq_true, false_or] at hcond
        by_cases hm : bch2_extent_matches_ptr k.start kData m.ptr m.offset = true
        · simp only [hm, Bool.not_true, Bool.false_eq_true, false_or] at hcond
          have hw : (migrateSplice m pos k kData new).2 = false := by
            simpa using hcond
          simp [hd, hv, hm, hw]
        · simp only [Bool.not_eq_true] at hm
          simp [hd, hv, hm]
  rw [hstep]
  have h := migrateNomatch_fields m st k rs
  rw [hctxt] at h
  exact ⟨h.1, h.2.1, h.2.2.1, by rw [h.2.2.2.1]; simp, h.2.2.2.2.1, h.2.2.2.2.2.1⟩

/-- Witness for C1: a stored extent of version 2 under a new key of
version 1 (a foreground write got there first); one raced region of 8
sectors, no error. -/
theorem C1_witness :
    stepErr (migrateStep ⟨-1, ⟨0, 100, false⟩, 0, true⟩
      ⟨0, [⟨0, 8, 1, [⟨⟨1, 500, false⟩, ⟨0, 0, 0, 0, 0, 0, 0⟩⟩]⟩],
        [⟨0, 8, 2, some [⟨⟨0, 100, false⟩, ⟨0, 0, 0, 0, 0, 0, 0⟩⟩]⟩],
        [], 0, 0, 0⟩) = 0 ∧
    (stepState (migrateStep ⟨-1, ⟨0, 100, false⟩, 0, true⟩
      ⟨0, [⟨0, 8, 1, [⟨⟨1, 500, false⟩, ⟨0, 0, 0, 0, 0, 0, 0⟩⟩]⟩],
        [⟨0, 8, 2, some [⟨⟨0, 100, false⟩, ⟨0, 0, 0, 0, 0, 0, 0⟩⟩]⟩],
        [], 0, 0, 0⟩)).raced = 0 + 1 ∧
    (stepState (migrateStep ⟨-1, ⟨0, 100, false⟩, 0, true⟩
      ⟨0, [⟨0, 8, 1, [⟨⟨1, 500, false⟩, ⟨0, 0, 0, 0, 0, 0, 0⟩⟩]⟩],
        [⟨0, 8, 2, some [⟨⟨0, 100, false⟩, ⟨0, 0, 0, 0, 0, 0, 0⟩⟩]⟩],
        [], 0, 0, 0⟩)).sectorsRaced = 0 + (8 - 0) := by
  have h := C1_migrate_raced_region ⟨-1, ⟨0, 100, false⟩, 0, true⟩
    ⟨0, [⟨0, 8, 1, [⟨⟨1, 500, false⟩, ⟨0, 0, 0, 0, 0, 0, 0⟩⟩]⟩],
      [⟨0, 8, 2, some [⟨⟨0, 100, false⟩, ⟨0, 0, 0, 0, 0, 0, 0⟩⟩]⟩],
      [], 0, 0, 0⟩
    ⟨0, 8, 2, some [⟨⟨0, 100, false⟩, ⟨0, 0, 0, 0, 0, 0, 0⟩⟩]⟩ []
    ⟨0, 8, 1, [⟨⟨1, 500, false⟩, ⟨0, 0, 0, 0, 0, 0, 0⟩⟩]⟩ []
    rfl rfl (by decide) rfl (by decide)
  exact ⟨h.1, h.2.1, h.2.2.2.1⟩

/-- Claim C3 counterexample: a move pass whose predicate selected exactly one
candidate extent (`keys_moved` advances by 1, move.c line 570) whose
written key covers two stored extents that were both rewritten by a
foreground write (versions differ): the migrate index-update accounts
each region separately, so `extent_migrate_done + extent_migrate_raced`
increases by 2, not by the number of candidate extents (1). -/
theorem C3_counterexample :
    (bch2_migrate_index_update ⟨-1, ⟨0, 100, false⟩, 0, true⟩ 3
        ⟨0, [⟨0, 8, 1, [⟨⟨1, 500, false⟩, ⟨0, 0, 0, 0, 0, 0, 0⟩⟩]⟩],
          [⟨0, 4, 2, some [⟨⟨0, 100, false⟩, ⟨0, 0, 0, 0, 0, 0, 0⟩⟩]⟩,
           ⟨4, 8, 2, some [⟨⟨0, 104, false⟩, ⟨0, 0, 0, 0, 0, 0, 0⟩⟩]⟩],
          [], 0, 0, 0⟩).1.done +
    (bch2_migrate_index_update ⟨-1, ⟨0, 100, false⟩, 0, true⟩ 3
        ⟨0, [⟨0, 8, 1, [⟨⟨1, 500, false⟩, ⟨0, 0, 0, 0, 0, 0, 0⟩⟩]⟩],
          [⟨0, 4, 2, some [⟨⟨0, 100, false⟩, ⟨0, 0, 0, 0, 0, 0, 0⟩⟩]⟩,
           ⟨4, 8, 2, some [⟨⟨0, 104, false⟩, ⟨0, 0, 0, 0, 0, 0, 0⟩⟩]⟩],
          [], 0, 0, 0⟩).1.raced = 2 ∧
    (bch2_move_extent_stats 8 ⟨0, 0, 0⟩).keysMoved = 1 ∧
    (2 : Nat) ≠ 1 := by
  decide

/-- Claim C3 (amended): every completed iteration of the migrate index-update
loop — one overlapping stored-extent region — increments exactly one of
`extent_migrate_done` and `extent_migrate_raced`; over a pass their sum
equals the number of regions the index updates processed, which is at
least, and can exceed, the number of candidate extents the pass's
predicate selected (one candidate's written keys may overlap several
stored extents). -/
theorem C3_region_counts_once (m : MigrateWrite) (st : MigrateState)
    (hs : st.slots ≠ []) (hk : st.keys ≠ []) :
    (stepState (migrateStep m st)).done + (stepState (migrateStep m st)).raced
      = st.done + st.raced + 1 := by
  have hnomdr : ∀ (st' : MigrateState) (k' : Slot) (rs' : List Slot),
      (stepState (migrateNomatch m st' k' rs')).done +
        (stepState (migrateNomatch m st' k' rs')).raced
        = st'.done + st'.raced + 1 := by
    intro st' k' rs'
    have h := migrateNomatch_fields m st' k' rs'
    rw [h.2.2.1, h.2.1]
    omega
  have hnkdr : ∀ st' : MigrateState,
      (stepState (migrateNextKeys st')).done +
        (stepState (migrateNextKeys st')).raced
        = st'.done + st'.raced := by
    intro st'
    have h := migrateNextKeys_fields st'
    rw [h.2.2.2.2.1, h.2.2.2.2.2.1]
  obtain ⟨k, rs, hslots⟩ := List.exists_cons_of_ne_nil hs
  obtain ⟨new, rk, hkeys⟩ := List.exists_cons_of_ne_nil hk
  obtain ⟨pos, keys, slots, out, d0, r0, s0⟩ := st
  simp only at hslots hkeys
  subst hslots hkeys
  obtain ⟨ks, ke, kv, kd⟩ := k
  show (stepState (migrateStep m ⟨pos, new :: rk, ⟨ks, ke, kv, kd⟩ :: rs, out, d0, r0, s0⟩)).done +
    (stepState (migrateStep m ⟨pos, new :: rk, ⟨ks, ke, kv, kd⟩ :: rs, out, d0, r0, s0⟩)).raced
      = d0 + r0 + 1
  unfold migrateStep
  cases kd with
  | none =>
    exact hnomdr ⟨pos, new :: rk, ⟨ks, ke, kv, none⟩ :: rs, out, d0, r0, s0⟩
      ⟨ks, ke, kv, none⟩ rs
  | some kData =>
    dsimp only
    by_cases hv : (kv != new.version) = true
    · rw [if_pos hv]
      exact hnomdr _ _ rs
    · rw [if_neg hv]
      by_cases hm : (!bch2_extent_matches_ptr ks kData m.ptr m.offset) = true
      · rw [if_pos hm]
        exact hnomdr _ _ rs
      · rw [if_neg hm]
        by_cases hw : (!(migrateSplice m pos ⟨ks, ke, kv, some kData⟩ kData new).2) = true
        · rw [if_pos hw]
          exact hnomdr _ _ rs
        · rw [if_neg hw]
          rw [hnkdr]
          show d0 + 1 + r0 = d0 + r0 + 1
          omega

/-- Witness for C3 (amended): one matched region commits successfully
and advances the counter sum by exactly one. -/
theorem C3_witness :
    (stepState (migrateStep ⟨-1, ⟨0, 100, false⟩, 0, true⟩
      ⟨0, [⟨0, 8, 1, [⟨⟨1, 500, false⟩, ⟨0, 0, 0, 0, 0, 0, 0⟩⟩]⟩],
        [⟨0, 8, 1, some [⟨⟨0, 100, false⟩, ⟨0, 0, 0, 0, 0, 0, 0⟩⟩]⟩],
        [], 0, 0, 0⟩)).done +
    (stepState (migrateStep ⟨-1, ⟨0, 100, false⟩, 0, true⟩
      ⟨0, [⟨0, 8, 1, [⟨⟨1, 500, false⟩, ⟨0, 0, 0, 0, 0, 0, 0⟩⟩]⟩],
        [⟨0, 8, 1, some [⟨⟨0, 100, false⟩, ⟨0, 0, 0, 0, 0, 0, 0⟩⟩]⟩],
        [], 0, 0, 0⟩)).raced = 0 + 0 + 1 := by
  exact C3_region_counts_once ⟨-1, ⟨0, 100, false⟩, 0, true⟩
    ⟨0, [⟨0, 8, 1, [⟨⟨1, 500, false⟩, ⟨0, 0, 0, 0, 0, 0, 0⟩⟩]⟩],
      [⟨0, 8, 1, some [⟨⟨0, 100, false⟩, ⟨0, 0, 0, 0, 0, 0, 0⟩⟩]⟩],
      [], 0, 0, 0⟩ (by decide) (by decide)

/-- Claim C2: a `BCH_DATA_OP_MIGRATE` data job passes `-1`, not
`op.migrate.dev`, as the move device (move.c line 880), so the migrate
index-update never executes its drop-source-pointer branch: after a
fully successful, race-free migrate of an extent whose only dirty
pointer is on device 0 (the new replica landing on device 1), the final
index still contains a pointer to device 0 — the claim's conclusion
fails even without concurrent foreground writes.  Had the job passed
the migrate target as the move device (third conjunct), the pointer to
device 0 would have been dropped. -/
theorem C2_migrate_job_leaves_pointer_to_migrated_device :
    (bch2_migrate_index_update
        ⟨bch2_data_job_migrate_move_device, ⟨0, 100, false⟩, 0, true⟩ 2
        ⟨0, [⟨0, 8, 1, [⟨⟨1, 500, false⟩, ⟨0, 0, 0, 0, 0, 0, 0⟩⟩]⟩],
          [⟨0, 8, 1, some [⟨⟨0, 100, false⟩, ⟨0, 0, 0, 0, 0, 0, 0⟩⟩]⟩],
          [], 0, 0, 0⟩).2 = 0 ∧
    ((bch2_migrate_index_update
        ⟨bch2_data_job_migrate_move_device, ⟨0, 100, false⟩, 0, true⟩ 2
        ⟨0, [⟨0, 8, 1, [⟨⟨1, 500, false⟩, ⟨0, 0, 0, 0, 0, 0, 0⟩⟩]⟩],
          [⟨0, 8, 1, some [⟨⟨0, 100, false⟩, ⟨0, 0, 0, 0, 0, 0, 0⟩⟩]⟩],
          [], 0, 0, 0⟩).1.outIndex.any
      fun s => bch2_extent_has_device (s.data.getD []) 0) = true ∧
    ((bch2_migrate_index_update
        ⟨(0 : Int), ⟨0, 100, false⟩, 0, true⟩ 2
        ⟨0, [⟨0, 8, 1, [⟨⟨1, 500, false⟩, ⟨0, 0, 0, 0, 0, 0, 0⟩⟩]⟩],
          [⟨0, 8, 1, some [⟨⟨0, 100, false⟩, ⟨0, 0, 0, 0, 0, 0, 0⟩⟩]⟩],
          [], 0, 0, 0⟩).1.outIndex.all
      fun s => !bch2_extent_has_device (s.data.getD []) 0) = true := by
  decide

end Bcachefs
